import Mathlib

/-!
Shallow embedding of the Shopifake test-runner (src/src/config.py,
src/src/orchestrator.py, src/src/cli.py, src/src/main.py and
src/src/tests/chaos/helpers/chaos_helper.py) together with proofs about
its orchestration and reporting behaviour.

External effects (pytest / Locust / Kubernetes / GitHub calls, printing)
are modelled by explicit oracle inputs and by traces of `Action` values;
Python exceptions are modelled by the `Except` monad with the `PyErr`
error type.  Wall-clock durations are modelled as abstract `Nat` ticks
(no claim depends on float formatting).
-/

namespace Shopifake

/-- Python exceptions relevant to this code base.  `attributeError a` is the
`AttributeError` raised when an attribute named `a` is looked up on an object
that does not have it (pydantic `BaseModel` raises it for undeclared fields);
`valueError` is `ValueError`; `exception` stands for any other exception
caught by a bare `except Exception` handler. -/
inductive PyErr where
  | attributeError (attr : String)
  | valueError (msg : String)
  | exception (msg : String)
deriving Repr, DecidableEq

/-- Decidable equality of `Except` results, used to evaluate the embedded
functions at concrete inputs. -/
instance {ε α : Type} [DecidableEq ε] [DecidableEq α] : DecidableEq (Except ε α)
  | Except.ok a, Except.ok b =>
      if h : a = b then Decidable.isTrue (by rw [h])
      else Decidable.isFalse (fun c => by cases c; exact h rfl)
  | Except.ok _, Except.error _ => Decidable.isFalse (fun c => by cases c)
  | Except.error _, Except.ok _ => Decidable.isFalse (fun c => by cases c)
  | Except.error a, Except.error b =>
      if h : a = b then Decidable.isTrue (by rw [h])
      else Decidable.isFalse (fun c => by cases c; exact h rfl)

/-- A process environment, as read by `os.getenv`. -/
def Env : Type := String → Option String

/-- `os.getenv(key, default)`. -/
def getenvD (env : Env) (key default : String) : String :=
  (env key).getD default

/-- The empty environment (no variable set). -/
def emptyEnv : Env := fun _ => none

/-- Read a non-empty run of decimal digits into `acc`, failing on any
non-digit character. -/
def readDigits : List Char → Nat → Option Nat
  | [], acc => some acc
  | c :: cs, acc =>
      if c.isDigit then readDigits cs (acc * 10 + (c.toNat - 48)) else none

/-- Python `int(s)`: parse a decimal integer with optional leading minus sign,
or raise `ValueError` (`src/config.py` lines 53 and 61 call
`int(os.getenv("TIMEOUT", ...))`).  Python's tolerance for surrounding
whitespace, a leading plus sign and underscores is not modelled; no claim
exercises those forms. -/
def pyInt (s : String) : Except PyErr Int :=
  let err : Except PyErr Int :=
    Except.error (PyErr.valueError ("invalid literal for int: " ++ s))
  match s.data with
  | [] => err
  | ['-'] => err
  | '-' :: cs =>
      match readDigits cs 0 with
      | some n => Except.ok (-(n : Int))
      | none => err
  | cs =>
      match readDigits cs 0 with
      | some n => Except.ok (n : Int)
      | none => err

/-- `TestConfig` (src/config.py lines 11-44).  The pydantic model declares
exactly the fields below, with these defaults; `mode` is
`Literal["pr", "staging"]` (kept as a `String` here, only those two values are
ever constructed by `from_mode`). -/
structure TestConfig where
  mode : String
  base_url : String
  timeout : Int := 60
  verbose : Bool := false
  github_token : Option String := none
  github_repo : String := "Shopifake/shopifake-back"
  create_pr : Bool := false
  send_email : Bool := false
  services : List String :=
    ["access", "audit", "catalog", "customers", "inventory", "orders",
     "pricing", "sales-dashboard", "sites", "chatbot", "recommender",
     "auth-b2c", "auth-b2e"]
deriving Repr, DecidableEq

/-- Attribute lookup of a boolean-valued attribute on a `TestConfig` instance.
pydantic `BaseModel` exposes exactly the declared fields of src/config.py
(`mode`, `base_url`, `timeout`, `verbose`, `github_token`, `github_repo`,
`create_pr`, `send_email`, `services`); looking up any other name raises
`AttributeError`.  The boolean-valued fields are `verbose`, `create_pr` and
`send_email`.  In particular the names `post_results_to_github` (accessed at
src/orchestrator.py line 275) and `github_commit_sha` (lines 321, 372, 400,
418) are not fields of `TestConfig`. -/
def TestConfig.getattrBool (c : TestConfig) (a : String) : Except PyErr Bool :=
  if a == "verbose" then Except.ok c.verbose
  else if a == "create_pr" then Except.ok c.create_pr
  else if a == "send_email" then Except.ok c.send_email
  else Except.error (PyErr.attributeError a)

/-- `TestConfig.from_mode` (src/config.py lines 46-67). -/
def TestConfig.from_mode (env : Env) (mode : String) : Except PyErr TestConfig :=
  if mode == "pr" then
    match pyInt (getenvD env "TIMEOUT" "60") with
    | Except.error e => Except.error e
    | Except.ok t =>
        Except.ok { mode := "pr"
                    base_url := getenvD env "BASE_URL" "http://localhost:8080"
                    timeout := t
                    create_pr := false
                    send_email := false }
  else if mode == "staging" then
    match pyInt (getenvD env "TIMEOUT" "300") with
    | Except.error e => Except.error e
    | Except.ok t =>
        Except.ok { mode := "staging"
                    base_url := getenvD env "BASE_URL" "https://staging-api.shopifake.com"
                    timeout := t
                    github_token := env "GITHUB_TOKEN"
                    create_pr := true
                    send_email := true }
  else Except.error (PyErr.valueError ("Unknown mode: " ++ mode))

/-- Key/value dictionary standing in for the Python `dict` type of
`TestReport.details`. -/
def PyDict : Type := List (String × String)

instance : DecidableEq PyDict :=
  inferInstanceAs (DecidableEq (List (String × String)))

instance : Repr PyDict := inferInstanceAs (Repr (List (String × String)))

/-- `TestReport` (src/orchestrator.py lines 13-22).  The dataclass declares
`system_passed: bool = False` etc., but `TestOrchestrator.run` assigns `None`
to suites that did not run, so at runtime each of the three suite fields holds
either `None` or a `bool`: modelled as `Option Bool` (the dataclass default
`False` is `some false`).  `duration` is wall-clock seconds; modelled as
abstract `Nat` ticks. -/
structure TestReport where
  success : Bool
  duration : Nat
  system_passed : Option Bool := some false
  load_passed : Option Bool := some false
  chaos_passed : Option Bool := some false
  details : Option PyDict := none
deriving Repr, DecidableEq

/-- The f-string fragment `"✅" if b else "❌"` used in both report renderers. -/
def boolEmoji (b : Bool) : String := if b then "✅" else "❌"

/-- The f-string fragment `"✅ PASSED" if b else "❌ FAILED"` of `to_markdown`. -/
def passFailWord (b : Bool) : String := if b then "✅ PASSED" else "❌ FAILED"

/-- The Python `f"{duration:.2f}"` rendering of a duration; two-decimal float
formatting is abstracted away because durations are modelled as whole ticks. -/
def formatSeconds (d : Nat) : String := toString d

/-- The per-suite markdown bullet lines appended by `TestReport.to_markdown`
(src/orchestrator.py lines 32-37): one line for each suite whose result
`is not None`, in the order system, load, chaos. -/
def suiteLinesOf (sp lp cp : Option Bool) : List String :=
  (match sp with
   | some b => ["- System Tests: " ++ passFailWord b]
   | none => []) ++
  (match lp with
   | some b => ["- Load Tests: " ++ passFailWord b]
   | none => []) ++
  (match cp with
   | some b => ["- Chaos Tests: " ++ passFailWord b]
   | none => [])

/-- `TestReport.to_markdown` (src/orchestrator.py lines 24-39). -/
def TestReport.to_markdown (r : TestReport) : String :=
  "# " ++ boolEmoji r.success ++ " Staging Test Results\n\n" ++
  "**Duration:** " ++ formatSeconds r.duration ++ "s\n\n" ++
  "## Test Suites\n\n" ++
  String.join ((suiteLinesOf r.system_passed r.load_passed r.chaos_passed).map
    (fun l => l ++ "\n"))

/-- The `parts` list built by `TestReport.to_commit_status_description`
(src/orchestrator.py lines 43-49): one entry per suite whose result
`is not None`. -/
def statusPartsOf (sp lp cp : Option Bool) : List String :=
  (match sp with
   | some b => ["System: " ++ boolEmoji b]
   | none => []) ++
  (match lp with
   | some b => ["Load: " ++ boolEmoji b]
   | none => []) ++
  (match cp with
   | some b => ["Chaos: " ++ boolEmoji b]
   | none => [])

/-- `TestReport.to_commit_status_description` (src/orchestrator.py lines
41-51): `" | ".join(parts) if parts else "No tests run"`. -/
def TestReport.to_commit_status_description (r : TestReport) : String :=
  let parts := statusPartsOf r.system_passed r.load_passed r.chaos_passed
  if parts.isEmpty then "No tests run" else String.intercalate " | " parts

/-- The three test suites the orchestrator can execute
(`_run_system_tests`, `_run_load_tests`, `_run_chaos_tests`). -/
inductive Suite where
  | system
  | load
  | chaos
deriving Repr, DecidableEq

/-- Externally visible actions of the orchestrator other than running a test
suite: console prints and the GitHub API calls of src/orchestrator.py
(`commit.create_status`, `commit.create_comment`, `repo.create_pull`).
`sendEmail` is included for the claimed email notification; the code's
`_send_failure_email` is a TODO stub that only prints, so no code path emits
it. -/
inductive Action where
  | print (s : String)
  | createCommitStatus (state description context : String)
  | createCommitComment (body : String)
  | createPull (title head base : String)
  | sendEmail (body : String)
deriving Repr, DecidableEq

/-- Whether an action is a console print. -/
def Action.isPrint : Action → Bool
  | Action.print _ => true
  | _ => false

/-- The `"=" * 60` separator line printed by both result handlers. -/
def sepLine : String := String.mk (List.replicate 60 '=')

/-- Oracle for the boolean outcomes of the three suite runners: the values
`_run_system_tests`, `_run_load_tests` and `_run_chaos_tests` would return if
invoked (each wraps a third-party framework). -/
structure SuiteOutcomes where
  system : Bool
  load : Bool
  chaos : Bool
deriving Repr, DecidableEq

namespace TestOrchestrator

/-- `suite in ["all", "system"]` (src/orchestrator.py line 73). -/
def runsSystem (suite : String) : Bool :=
  suite == "all" || suite == "system"

/-- `suite in ["all", "load"] and self.config.mode == "staging"`
(src/orchestrator.py line 78). -/
def runsLoad (cfg : TestConfig) (suite : String) : Bool :=
  (suite == "all" || suite == "load") && cfg.mode == "staging"

/-- `suite in ["all", "chaos"] and self.config.mode == "staging"`
(src/orchestrator.py line 83). -/
def runsChaos (cfg : TestConfig) (suite : String) : Bool :=
  (suite == "all" || suite == "chaos") && cfg.mode == "staging"

/-- The suites `TestOrchestrator.run` executes, in source order
(src/orchestrator.py lines 73-86): system, then load, then chaos. -/
def executedSuites (cfg : TestConfig) (suite : String) : List Suite :=
  (if runsSystem suite then [Suite.system] else []) ++
  (if runsLoad cfg suite then [Suite.load] else []) ++
  (if runsChaos cfg suite then [Suite.chaos] else [])

/-- The report built by `TestOrchestrator.run` (src/orchestrator.py lines
68-101): each suite's field is its runner's result when it ran, `None`
otherwise; `all_results` keeps the non-`None` results and
`success = all(all_results) if all_results else False`. -/
def mkReport (cfg : TestConfig) (out : SuiteOutcomes) (suite : String)
    (dur : Nat) : TestReport :=
  let system_passed : Option Bool :=
    if runsSystem suite then some out.system else none
  let load_passed : Option Bool :=
    if runsLoad cfg suite then some out.load else none
  let chaos_passed : Option Bool :=
    if runsChaos cfg suite then some out.chaos else none
  let all_results := [system_passed, load_passed, chaos_passed].filterMap id
  let success := if all_results.isEmpty then false else all_results.all id
  { success := success
    duration := dur
    system_passed := system_passed
    load_passed := load_passed
    chaos_passed := chaos_passed }

/-- The banner and per-suite announcement prints of `TestOrchestrator.run`
(src/orchestrator.py lines 65-86); `print()` is a print of the empty
string. -/
def announceActions (cfg : TestConfig) (suite : String) : List Action :=
  [Action.print ("[" ++ cfg.mode.toUpper ++ "] Running tests against " ++
     cfg.base_url),
   Action.print ""] ++
  (if runsSystem suite then
     [Action.print ("[" ++ cfg.mode.toUpper ++ "] Running system tests..."),
      Action.print ""]
   else []) ++
  (if runsLoad cfg suite then
     [Action.print "[STAGING] Running load tests...", Action.print ""]
   else []) ++
  (if runsChaos cfg suite then
     [Action.print "[STAGING] Running chaos tests...", Action.print ""]
   else [])

/-- `TestOrchestrator._handle_pr_results` (src/orchestrator.py lines 258-265):
prints a six-line summary and nothing else. -/
def handle_pr_results (r : TestReport) : List Action :=
  [Action.print sepLine,
   Action.print "PR Test Results",
   Action.print sepLine,
   Action.print ("Status: " ++ (if r.success then "✅ PASSED" else "❌ FAILED")),
   Action.print ("Duration: " ++ formatSeconds r.duration ++ "s"),
   Action.print sepLine]

/-- `TestOrchestrator._send_failure_email` (src/orchestrator.py lines
425-428): a TODO stub that only prints; no email is actually sent. -/
def send_failure_email (r : TestReport) : List Action :=
  [Action.print "TODO: Implement email notification via GitHub Actions",
   Action.print ("Would send email with report:\n" ++ r.to_markdown)]

/-- `TestOrchestrator._post_results_to_github` (src/orchestrator.py lines
362-423).  With no token it prints a skip notice and returns; otherwise the
guard `if not self.config.github_commit_sha:` (line 372) looks up a field that
`TestConfig` does not declare, raising `AttributeError` before the `try`
block, so the commit status and comment are never created. -/
def post_results_to_github (cfg : TestConfig) (_r : TestReport) :
    List Action × Except PyErr Unit :=
  match cfg.github_token with
  | none =>
      ([Action.print "⚠️  GITHUB_TOKEN not set, skipping GitHub result posting"],
       Except.ok ())
  | some _ => ([], Except.error (PyErr.attributeError "github_commit_sha"))

/-- The text of the `AttributeError` raised by pydantic for a missing
`TestConfig` field (quotation marks of the Python message omitted). -/
def attributeErrorText (a : String) : String :=
  "TestConfig object has no attribute " ++ a

/-- `TestOrchestrator._create_promotion_pr` (src/orchestrator.py lines
298-360).  With no token it prints a skip notice and returns.  Otherwise the
PR body f-string reads `self.config.github_commit_sha` (line 321) — a field
`TestConfig` does not declare — inside the `try` block, so the
`AttributeError` is caught by `except Exception` (line 357) and reported as a
failure print: `repo.create_pull` is never reached. -/
def create_promotion_pr (cfg : TestConfig) (_r : TestReport) : List Action :=
  match cfg.github_token with
  | none => [Action.print "⚠️  GITHUB_TOKEN not set, skipping PR creation"]
  | some _ =>
      [Action.print ("❌ Failed to create PR: " ++
        attributeErrorText "github_commit_sha")]

/-- The success/failure branch of `_handle_staging_results`
(src/orchestrator.py lines 279-296), reached only after the
`post_results_to_github` step. -/
def stagingTail (cfg : TestConfig) (r : TestReport) (acts : List Action) :
    List Action × Except PyErr Unit :=
  let acts := acts ++
    (if r.success then
       (if cfg.create_pr then
          [Action.print "\n🎉 All tests passed - Creating promotion PR..."] ++
            create_promotion_pr cfg r
        else [Action.print "\n✅ All tests passed (PR creation disabled)"])
     else
       [Action.print "\n❌ Tests failed"] ++
       (if cfg.send_email then
          [Action.print "📧 Sending failure notification..."] ++
            send_failure_email r
        else [Action.print "⚠️  Email notifications disabled"]))
  (acts ++ [Action.print sepLine], Except.ok ())

/-- `TestOrchestrator._handle_staging_results` (src/orchestrator.py lines
267-296).  After four prints, line 275 evaluates
`self.config.post_results_to_github` — `TestConfig` declares no such field,
so the lookup raises `AttributeError` (modelled by `getattrBool`); the
remainder of the handler is unreachable but kept for completeness.  Returns
the actions performed before the exception, paired with the outcome. -/
def handle_staging_results (cfg : TestConfig) (r : TestReport) :
    List Action × Except PyErr Unit :=
  let acts := [Action.print sepLine,
               Action.print "Staging Test Results",
               Action.print sepLine,
               Action.print r.to_markdown]
  match cfg.getattrBool "post_results_to_github" with
  | Except.error e => (acts, Except.error e)
  | Except.ok post =>
      if post then
        let p := post_results_to_github cfg r
        let acts := acts ++
          [Action.print "\n📤 Posting test results to GitHub..."] ++ p.1
        match p.2 with
        | Except.error e => (acts, Except.error e)
        | Except.ok _ => stagingTail cfg r acts
      else stagingTail cfg r acts

/-- `TestOrchestrator.run` (src/orchestrator.py lines 61-109).  Returns the
suites executed, the trace of other actions, and either the report returned
or the exception propagated out of `run`.  The pure `mkReport` part is the
report built at lines 88-101; result handling dispatches on the mode. -/
def run (cfg : TestConfig) (out : SuiteOutcomes) (suite : String)
    (dur : Nat) : List Suite × List Action × Except PyErr TestReport :=
  let report := mkReport cfg out suite dur
  let pre := announceActions cfg suite
  (executedSuites cfg suite,
   if cfg.mode == "staging" then
     let h := handle_staging_results cfg report
     (pre ++ h.1,
      match h.2 with
      | Except.ok _ => Except.ok report
      | Except.error e => Except.error e)
   else if cfg.mode == "pr" then
     (pre ++ handle_pr_results report, Except.ok report)
   else (pre, Except.ok report))

/-- Oracle inputs of `TestOrchestrator._run_load_tests` (src/orchestrator.py
lines 137-211): whether the locustfile exists on disk, and the outcome of the
programmatic `locust.main.main()` invocation — either an exit code or a raised
exception (the `except Exception` handler at line 207 catches the latter). -/
structure LoadWorld where
  locustfile_exists : Bool
  locust_result : Except PyErr Int
deriving Repr, DecidableEq

/-- `TestOrchestrator._run_load_tests` (src/orchestrator.py lines 137-211):
returns `False` when the locustfile is missing, `True` exactly when the
Locust invocation returns exit code 0, and `False` when it raises (the
exception is caught at line 207). -/
def run_load_tests (w : LoadWorld) : Bool :=
  if !w.locustfile_exists then false
  else
    match w.locust_result with
    | Except.ok code => code == 0
    | Except.error _ => false

end TestOrchestrator

/-- The CLI-flag override block of `main` (src/cli.py lines 53-59):
`if base_url:` and `if timeout:` are Python truthiness tests, so an absent
option, an empty string or a zero timeout leaves the config value unchanged;
`verbose` is always assigned. -/
def cli_overrides (cfg : TestConfig) (base_url : Option String)
    (timeout : Option Int) (verbose : Bool) : TestConfig :=
  let cfg :=
    match base_url with
    | some u => if u == "" then cfg else { cfg with base_url := u }
    | none => cfg
  let cfg :=
    match timeout with
    | some t => if t == 0 then cfg else { cfg with timeout := t }
    | none => cfg
  { cfg with verbose := verbose }

/-- `main` of src/cli.py (lines 43-66): build the config with
`TestConfig.from_mode`, apply CLI overrides, run the orchestrator, and call
`sys.exit(0 if report.success else 1)`.  The result is the process exit code
(`Except.ok`) or an exception that escaped `main` (`Except.error`). -/
def cli_main (env : Env) (mode suite : String) (base_url : Option String)
    (timeout : Option Int) (verbose : Bool) (out : SuiteOutcomes)
    (dur : Nat) : Except PyErr Nat :=
  match TestConfig.from_mode env mode with
  | Except.error e => Except.error e
  | Except.ok cfg0 =>
      let cfg := cli_overrides cfg0 base_url timeout verbose
      match (TestOrchestrator.run cfg out suite dur).2.2 with
      | Except.error e => Except.error e
      | Except.ok report => Except.ok (if report.success then 0 else 1)

namespace ChaosHelper

/-- Python `s.endswith(t)`, character-wise. -/
def strEndsWith (s t : String) : Bool :=
  t.data.isSuffixOf s.data

/-- Python `s.lower()` (ASCII case mapping suffices for the kinds used). -/
def strLower (s : String) : String :=
  String.mk (s.data.map Char.toLower)

/-- The resource plural derived by `ChaosHelper.delete_chaos`
(src/tests/chaos/helpers/chaos_helper.py line 210) and by
`ChaosHelper.get_chaos_status` (line 231):
`kind.lower() + "es" if kind.endswith("s") else kind.lower() + "s"`,
which by Python precedence is
`(kind.lower() + "es") if kind.endswith("s") else (kind.lower() + "s")`. -/
def derivedPlural (kind : String) : String :=
  if strEndsWith kind "s" then strLower kind ++ "es" else strLower kind ++ "s"

/-- The `kind` field and the `plural` argument used by
`ChaosHelper.create_pod_chaos` (chaos_helper.py lines 66 and 86). -/
def podChaosKind : String := "PodChaos"

/-- `plural="podchaos"` passed by `create_pod_chaos` (line 86). -/
def create_pod_chaos_plural : String := "podchaos"

/-- The `kind` field used by `ChaosHelper.create_network_chaos` (line 137). -/
def networkChaosKind : String := "NetworkChaos"

/-- `plural="networkchaos"` passed by `create_network_chaos` (line 149). -/
def create_network_chaos_plural : String := "networkchaos"

/-- The `kind` field used by `ChaosHelper.create_stress_chaos` (line 178). -/
def stressChaosKind : String := "StressChaos"

/-- `plural="stresschaos"` passed by `create_stress_chaos` (line 198). -/
def create_stress_chaos_plural : String := "stresschaos"

end ChaosHelper

/-- The response body of the `/health` endpoint of src/main.py. -/
structure HealthResponse where
  status : String
  database : String
  environment : String
deriving Repr, DecidableEq

/-- `health_check` of src/main.py (lines 32-54).  `dbCheck` is the outcome of
`await db.execute(select(text("1")))` — success or a raised exception; the
handler's `try`/`except Exception` maps it to the `database` field.
`environment` is `settings.ENVIRONMENT` (the settings module is not part of
this repository's sources; the value is passed through unchanged). -/
def health_check (dbCheck : Except PyErr Unit) (environment : String) :
    HealthResponse :=
  let db_status :=
    match dbCheck with
    | Except.ok _ => "connected"
    | Except.error _ => "disconnected"
  { status := "healthy", database := db_status, environment := environment }

/-- Character-level string prefix test, used to recognise the per-suite bullet
lines of the markdown report. -/
def strStartsWith (s t : String) : Bool :=
  t.data.isPrefixOf s.data

/-- Whether `t` occurs as a contiguous run inside `s`. -/
def listContains : List Char → List Char → Bool
  | [], t => t.isEmpty
  | c :: rest, t => t.isPrefixOf (c :: rest) || listContains rest t

/-- Character-level substring test, used to ask whether the rendered markdown
mentions a given suite. -/
def strContains (s t : String) : Bool :=
  listContains s.data t.data

/-- The configuration `TestConfig.from_mode(env, "staging")` produces when no
relevant environment variable is set. -/
def stagingDefaultConfig : TestConfig :=
  { mode := "staging"
    base_url := "https://staging-api.shopifake.com"
    timeout := 300
    github_token := none
    create_pr := true
    send_email := true }

/-- The configuration `TestConfig.from_mode(env, "pr")` produces when no
relevant environment variable is set. -/
def prDefaultConfig : TestConfig :=
  { mode := "pr"
    base_url := "http://localhost:8080"
    timeout := 60
    create_pr := false
    send_email := false }

end Shopifake


namespace Shopifake

/-! ## Helper lemmas shared by several results -/

/-- `TestConfig` declares no `post_results_to_github` field, so attribute
lookup raises `AttributeError`. -/
theorem getattrBool_post_results (c : TestConfig) :
    c.getattrBool "post_results_to_github" =
      Except.error (PyErr.attributeError "post_results_to_github") := rfl

/-- `_handle_staging_results` always raises `AttributeError` at the
`self.config.post_results_to_github` lookup, whatever the config and
report. -/
theorem handle_staging_results_raises (cfg : TestConfig) (r : TestReport) :
    (TestOrchestrator.handle_staging_results cfg r).2 =
      Except.error (PyErr.attributeError "post_results_to_github") := rfl

/-- The actions `_handle_staging_results` performs before the exception are
console prints only. -/
theorem handle_staging_results_prints (cfg : TestConfig) (r : TestReport) :
    (TestOrchestrator.handle_staging_results cfg r).1.all Action.isPrint =
      true := rfl

/-- The first component of `run` is the list of executed suites. -/
theorem run_fst (cfg : TestConfig) (out : SuiteOutcomes) (suite : String)
    (dur : Nat) :
    (TestOrchestrator.run cfg out suite dur).1 =
      TestOrchestrator.executedSuites cfg suite := rfl

/-- `run` either returns the report built by `mkReport` or propagates the
staging handler's `AttributeError`. -/
theorem run_report_or_raises (cfg : TestConfig) (out : SuiteOutcomes)
    (suite : String) (dur : Nat) :
    (TestOrchestrator.run cfg out suite dur).2.2 =
        Except.ok (TestOrchestrator.mkReport cfg out suite dur) ∨
      (TestOrchestrator.run cfg out suite dur).2.2 =
        Except.error (PyErr.attributeError "post_results_to_github") := by
  by_cases h : cfg.mode = "staging"
  · right
    simp [TestOrchestrator.run, h, handle_staging_results_raises]
  · left
    have hb : (cfg.mode == "staging") = false := by
      simp [h]
    by_cases h2 : cfg.mode = "pr"
    · simp [TestOrchestrator.run, hb, h2]
    · have hb2 : (cfg.mode == "pr") = false := by
        simp [h2]
      simp [TestOrchestrator.run, hb, hb2]

/-- The success flag computed at src/orchestrator.py lines 89-90, in terms of
the three optional suite results. -/
theorem success_flag_iff : ∀ sp lp cp : Option Bool,
    ((if ([sp, lp, cp].filterMap id).isEmpty then false
      else ([sp, lp, cp].filterMap id).all id) = true) ↔
      ((sp ≠ none ∨ lp ≠ none ∨ cp ≠ none) ∧
        sp ≠ some false ∧ lp ≠ some false ∧ cp ≠ some false) := by
  decide

/-- All announcement actions of `run` are console prints. -/
theorem announceActions_prints (cfg : TestConfig) (suite : String) :
    (TestOrchestrator.announceActions cfg suite).all Action.isPrint = true := by
  cases hs : TestOrchestrator.runsSystem suite <;>
    cases hl : TestOrchestrator.runsLoad cfg suite <;>
      cases hc : TestOrchestrator.runsChaos cfg suite <;>
        simp [TestOrchestrator.announceActions, hs, hl, hc, Action.isPrint]

/-! ## The claims -/

/-- C1: the overall success verdict computed by `TestOrchestrator.run` equals
the conjunction of the boolean results of the suites that actually ran (those
whose result is not `None`), and is `False` when no suite ran at all; `run`
returns exactly this report unless the staging handler's exception
propagates. -/
theorem claim_C1 (cfg : TestConfig) (out : SuiteOutcomes) (suite : String)
    (dur : Nat) :
    ((TestOrchestrator.mkReport cfg out suite dur).success = true ↔
      (((TestOrchestrator.mkReport cfg out suite dur).system_passed ≠ none ∨
        (TestOrchestrator.mkReport cfg out suite dur).load_passed ≠ none ∨
        (TestOrchestrator.mkReport cfg out suite dur).chaos_passed ≠ none) ∧
       (TestOrchestrator.mkReport cfg out suite dur).system_passed ≠ some false ∧
       (TestOrchestrator.mkReport cfg out suite dur).load_passed ≠ some false ∧
       (TestOrchestrator.mkReport cfg out suite dur).chaos_passed ≠ some false)) ∧
    ((TestOrchestrator.run cfg out suite dur).2.2 =
        Except.ok (TestOrchestrator.mkReport cfg out suite dur) ∨
      (TestOrchestrator.run cfg out suite dur).2.2 =
        Except.error (PyErr.attributeError "post_results_to_github")) := by
  refine ⟨?_, run_report_or_raises cfg out suite dur⟩
  exact success_flag_iff _ _ _

/-- C2 (refuted as stated): in staging mode, handling the finished report
raises `AttributeError` at the `self.config.post_results_to_github` lookup
(`TestConfig` declares no such field) before anything is posted; the only
actions performed are console prints, so neither a commit status, nor a
promotion pull request, nor a failure notification is produced, for every
config and report. -/
theorem claim_C2 (cfg : TestConfig) (r : TestReport) :
    (TestOrchestrator.handle_staging_results cfg r).2 =
        Except.error (PyErr.attributeError "post_results_to_github") ∧
      (TestOrchestrator.handle_staging_results cfg r).1.all Action.isPrint =
        true :=
  ⟨handle_staging_results_raises cfg r, handle_staging_results_prints cfg r⟩

/-- When the mode is not `"staging"`, the load-suite guard of `run` is
false. -/
theorem runsLoad_false_of_ne (cfg : TestConfig) (suite : String)
    (h : cfg.mode ≠ "staging") :
    TestOrchestrator.runsLoad cfg suite = false := by
  have hms : (cfg.mode == "staging") = false := by simp [h]
  show ((suite == "all" || suite == "load") && (cfg.mode == "staging")) = false
  rw [hms, Bool.and_false]

/-- When the mode is not `"staging"`, the chaos-suite guard of `run` is
false. -/
theorem runsChaos_false_of_ne (cfg : TestConfig) (suite : String)
    (h : cfg.mode ≠ "staging") :
    TestOrchestrator.runsChaos cfg suite = false := by
  have hms : (cfg.mode == "staging") = false := by simp [h]
  show ((suite == "all" || suite == "chaos") && (cfg.mode == "staging")) = false
  rw [hms, Bool.and_false]

/-- In staging mode the load-suite guard holds for suite `"all"`. -/
theorem runsLoad_all_staging (cfg : TestConfig) (h : cfg.mode = "staging") :
    TestOrchestrator.runsLoad cfg "all" = true := by
  show (("all" == "all" || "all" == "load") && (cfg.mode == "staging")) = true
  rw [h]
  decide

/-- In staging mode the chaos-suite guard holds for suite `"all"`. -/
theorem runsChaos_all_staging (cfg : TestConfig) (h : cfg.mode = "staging") :
    TestOrchestrator.runsChaos cfg "all" = true := by
  show (("all" == "all" || "all" == "chaos") && (cfg.mode == "staging")) = true
  rw [h]
  decide

/-- C3: `TestOrchestrator.run` executes the suites in source order according
to mode: the executed list is `executedSuites`; for suite `"all"` in staging
mode it is system, load, chaos in that order; load or chaos appear only when
the mode is `"staging"`; and in `"pr"` mode at most the system suite runs,
whatever the suite argument. -/
theorem claim_C3 (cfg : TestConfig) (out : SuiteOutcomes) (suite : String)
    (dur : Nat) :
    ((TestOrchestrator.run cfg out suite dur).1 =
        TestOrchestrator.executedSuites cfg suite) ∧
    (cfg.mode = "staging" →
      (TestOrchestrator.run cfg out "all" dur).1 =
        [Suite.system, Suite.load, Suite.chaos]) ∧
    (Suite.load ∈ (TestOrchestrator.run cfg out suite dur).1 →
      cfg.mode = "staging") ∧
    (Suite.chaos ∈ (TestOrchestrator.run cfg out suite dur).1 →
      cfg.mode = "staging") ∧
    (cfg.mode = "pr" →
      (TestOrchestrator.run cfg out suite dur).1 =
        (if TestOrchestrator.runsSystem suite then [Suite.system] else [])) := by
  refine ⟨rfl, ?_, ?_, ?_, ?_⟩
  · intro h
    rw [run_fst]
    unfold TestOrchestrator.executedSuites
    rw [runsLoad_all_staging cfg h, runsChaos_all_staging cfg h]
    simp [TestOrchestrator.runsSystem]
  · intro hmem
    by_contra hne
    rw [run_fst] at hmem
    simp [TestOrchestrator.executedSuites, runsLoad_false_of_ne cfg suite hne,
      runsChaos_false_of_ne cfg suite hne] at hmem
  · intro hmem
    by_contra hne
    rw [run_fst] at hmem
    simp [TestOrchestrator.executedSuites, runsLoad_false_of_ne cfg suite hne,
      runsChaos_false_of_ne cfg suite hne] at hmem
  · intro h
    have hne : cfg.mode ≠ "staging" := by simp [h]
    rw [run_fst]
    simp [TestOrchestrator.executedSuites, runsLoad_false_of_ne cfg suite hne,
      runsChaos_false_of_ne cfg suite hne]

/-- C3 witness: a staging `"all"` run executes system, load, chaos in order,
and a pr-mode `"load"` run executes no suite beyond possibly system. -/
theorem claim_C3_witness :
    (TestOrchestrator.run stagingDefaultConfig ⟨true, true, true⟩ "all" 0).1 =
      [Suite.system, Suite.load, Suite.chaos] ∧
    (TestOrchestrator.run prDefaultConfig ⟨true, true, true⟩ "load" 0).1 =
      (if TestOrchestrator.runsSystem "load" then [Suite.system] else []) :=
  ⟨(claim_C3 stagingDefaultConfig ⟨true, true, true⟩ "all" 0).2.1 rfl,
   (claim_C3 prDefaultConfig ⟨true, true, true⟩ "load" 0).2.2.2.2 rfl⟩

/-- C4: with `TIMEOUT` unset, `from_mode` yields for `"pr"` a config with
`create_pr = False`, `send_email = False` and timeout 60; for `"staging"` a
config with `create_pr = True`, `send_email = True`, timeout 300 and the
GitHub token taken from the environment; and raises `ValueError` for every
other mode string. -/
theorem claim_C4 (env : Env) (h : env "TIMEOUT" = none) :
    (TestConfig.from_mode env "pr" =
      Except.ok { mode := "pr"
                  base_url := getenvD env "BASE_URL" "http://localhost:8080"
                  timeout := 60
                  create_pr := false
                  send_email := false }) ∧
    (TestConfig.from_mode env "staging" =
      Except.ok { mode := "staging"
                  base_url := getenvD env "BASE_URL" "https://staging-api.shopifake.com"
                  timeout := 300
                  github_token := env "GITHUB_TOKEN"
                  create_pr := true
                  send_email := true }) ∧
    (∀ mode : String, mode ≠ "pr" → mode ≠ "staging" →
      TestConfig.from_mode env mode =
        Except.error (PyErr.valueError ("Unknown mode: " ++ mode))) := by
  refine ⟨?_, ?_, ?_⟩
  · simp only [TestConfig.from_mode, getenvD, h, Option.getD_none]
    rfl
  · simp only [TestConfig.from_mode, getenvD, h, Option.getD_none]
    rfl
  · intro mode h1 h2
    have b1 : (mode == "pr") = false := by simp [h1]
    have b2 : (mode == "staging") = false := by simp [h2]
    simp [TestConfig.from_mode, b1, b2]

/-- C4 witness: the empty environment instantiates the three parts of C4. -/
theorem claim_C4_witness :
    emptyEnv "TIMEOUT" = none ∧
    TestConfig.from_mode emptyEnv "pr" = Except.ok prDefaultConfig ∧
    TestConfig.from_mode emptyEnv "staging" = Except.ok stagingDefaultConfig ∧
    TestConfig.from_mode emptyEnv "dev" =
      Except.error (PyErr.valueError ("Unknown mode: " ++ "dev")) := by
  refine ⟨rfl, ?_, ?_, ?_⟩
  · rw [(claim_C4 emptyEnv rfl).1]
    decide
  · rw [(claim_C4 emptyEnv rfl).2.1]
    decide
  · exact (claim_C4 emptyEnv rfl).2.2 "dev" (by decide) (by decide)

/-- C5: the CLI exits via `sys.exit(0 if report.success else 1)`: whenever the
orchestrator run returns a report, the process exit code is 0 exactly when the
report's success field is true, and 1 exactly when it is false. -/
theorem claim_C5 (env : Env) (mode suite : String) (b : Option String)
    (t : Option Int) (v : Bool) (out : SuiteOutcomes) (dur : Nat)
    (cfg0 : TestConfig) (r : TestReport)
    (h1 : TestConfig.from_mode env mode = Except.ok cfg0)
    (h2 : (TestOrchestrator.run (cli_overrides cfg0 b t v) out suite dur).2.2 =
      Except.ok r) :
    cli_main env mode suite b t v out dur =
        Except.ok (if r.success then 0 else 1) ∧
      (cli_main env mode suite b t v out dur = Except.ok 0 ↔
        r.success = true) ∧
      (cli_main env mode suite b t v out dur = Except.ok 1 ↔
        r.success = false) := by
  refine ⟨?_, ?_, ?_⟩ <;>
    simp only [cli_main, h1, h2] <;>
      cases hs : r.success <;> simp [hs]

/-- C5 witness: a concrete all-passing pr-mode run exits with code 0. -/
theorem claim_C5_witness :
    cli_main emptyEnv "pr" "system" none none false ⟨true, true, true⟩ 0 =
      Except.ok 0 :=
  (claim_C5 emptyEnv "pr" "system" none none false ⟨true, true, true⟩ 0
    prDefaultConfig
    { success := true, duration := 0, system_passed := some true,
      load_passed := none, chaos_passed := none }
    (by decide) (by decide)).2.1.mpr rfl

/-- C6 (refuted as stated): an exception raised by the Locust invocation is
caught and `_run_load_tests` returns `False` as claimed; but the orchestrator
run does not then complete with a report, because load tests only run in
staging mode, where `run` goes on to raise `AttributeError` at the
`self.config.post_results_to_github` lookup in `_handle_staging_results`. -/
theorem claim_C6 :
    (∀ (e : PyErr) (b : Bool),
      TestOrchestrator.run_load_tests ⟨b, Except.error e⟩ = false) ∧
    (∀ (sys chaos : Bool) (dur : Nat) (e : PyErr),
      (TestOrchestrator.run stagingDefaultConfig
          ⟨sys, TestOrchestrator.run_load_tests ⟨true, Except.error e⟩, chaos⟩
          "load" dur).2.2 =
        Except.error (PyErr.attributeError "post_results_to_github")) := by
  constructor
  · intro e b
    cases b <;> rfl
  · intro sys chaos dur e
    rfl

/-- `_handle_pr_results` performs console prints only. -/
theorem handle_pr_results_prints (r : TestReport) :
    (TestOrchestrator.handle_pr_results r).all Action.isPrint = true := rfl

/-- C7: in pr mode, handling the finished report only prints: the whole action
trace of `run` consists of console prints (no commit status or comment, no
pull request, no email), and `run` returns its report normally, for every
success or failure outcome. -/
theorem claim_C7 :
    (∀ r : TestReport,
      (TestOrchestrator.handle_pr_results r).all Action.isPrint = true) ∧
    (∀ (cfg : TestConfig) (out : SuiteOutcomes) (suite : String) (dur : Nat),
      cfg.mode = "pr" →
        (TestOrchestrator.run cfg out suite dur).2.1.all Action.isPrint =
            true ∧
          (TestOrchestrator.run cfg out suite dur).2.2 =
            Except.ok (TestOrchestrator.mkReport cfg out suite dur)) := by
  constructor
  · exact handle_pr_results_prints
  · intro cfg out suite dur h
    have hb : (cfg.mode == "staging") = false := by simp [h]
    have hb2 : (cfg.mode == "pr") = true := by simp [h]
    constructor
    · simp [TestOrchestrator.run, hb, hb2, List.all_append,
        announceActions_prints, handle_pr_results_prints]
    · simp [TestOrchestrator.run, hb, hb2]

/-- C7 witness: a concrete pr-mode run prints only and returns its report. -/
theorem claim_C7_witness :
    (TestOrchestrator.run prDefaultConfig ⟨true, true, true⟩ "all" 0).2.1.all
        Action.isPrint = true ∧
      (TestOrchestrator.run prDefaultConfig ⟨true, true, true⟩ "all" 0).2.2 =
        Except.ok
          (TestOrchestrator.mkReport prDefaultConfig ⟨true, true, true⟩
            "all" 0) :=
  claim_C7.2 prDefaultConfig ⟨true, true, true⟩ "all" 0 rfl

/-- C8 (refuted as stated): the plural `delete_chaos` and `get_chaos_status`
derive for each of the three kinds created by the helper appends `"es"`
(every kind ends in `"s"`), so it never equals the plural the corresponding
create function passed to the Kubernetes API. -/
theorem claim_C8 :
    ChaosHelper.derivedPlural ChaosHelper.podChaosKind = "podchaoses" ∧
    ChaosHelper.create_pod_chaos_plural = "podchaos" ∧
    ChaosHelper.derivedPlural ChaosHelper.podChaosKind ≠
      ChaosHelper.create_pod_chaos_plural ∧
    ChaosHelper.derivedPlural ChaosHelper.networkChaosKind =
      "networkchaoses" ∧
    ChaosHelper.create_network_chaos_plural = "networkchaos" ∧
    ChaosHelper.derivedPlural ChaosHelper.networkChaosKind ≠
      ChaosHelper.create_network_chaos_plural ∧
    ChaosHelper.derivedPlural ChaosHelper.stressChaosKind = "stresschaoses" ∧
    ChaosHelper.create_stress_chaos_plural = "stresschaos" ∧
    ChaosHelper.derivedPlural ChaosHelper.stressChaosKind ≠
      ChaosHelper.create_stress_chaos_plural := by
  decide

/-- The behaviour of the two report renderers on each combination of optional
suite results. -/
theorem report_render_cases : ∀ sp lp cp : Option Bool,
    ((if (statusPartsOf sp lp cp).isEmpty then "No tests run"
      else String.intercalate " | " (statusPartsOf sp lp cp)) =
        "No tests run" ↔ (sp = none ∧ lp = none ∧ cp = none)) ∧
    (statusPartsOf sp lp cp).length =
      [sp, lp, cp].countP Option.isSome ∧
    (suiteLinesOf sp lp cp).length =
      [sp, lp, cp].countP Option.isSome ∧
    ((suiteLinesOf sp lp cp).any
      (fun l => strStartsWith l "- System Tests:") = sp.isSome) ∧
    ((suiteLinesOf sp lp cp).any
      (fun l => strStartsWith l "- Load Tests:") = lp.isSome) ∧
    ((suiteLinesOf sp lp cp).any
      (fun l => strStartsWith l "- Chaos Tests:") = cp.isSome) := by
  decide

/-- C9: `to_commit_status_description` returns `"No tests run"` exactly when
all three suite results are `None`, and otherwise one entry per suite that
ran; `to_markdown` lists a bullet line for a suite exactly when its result is
not `None` (shown both on the line list it joins and, for a fixed duration,
as a substring of the rendered markdown). -/
theorem claim_C9 :
    (∀ r : TestReport,
      (r.to_commit_status_description = "No tests run" ↔
        (r.system_passed = none ∧ r.load_passed = none ∧
          r.chaos_passed = none)) ∧
      (statusPartsOf r.system_passed r.load_passed r.chaos_passed).length =
        [r.system_passed, r.load_passed, r.chaos_passed].countP
          Option.isSome ∧
      (suiteLinesOf r.system_passed r.load_passed r.chaos_passed).length =
        [r.system_passed, r.load_passed, r.chaos_passed].countP
          Option.isSome ∧
      ((suiteLinesOf r.system_passed r.load_passed r.chaos_passed).any
        (fun l => strStartsWith l "- System Tests:") =
          r.system_passed.isSome) ∧
      ((suiteLinesOf r.system_passed r.load_passed r.chaos_passed).any
        (fun l => strStartsWith l "- Load Tests:") = r.load_passed.isSome) ∧
      ((suiteLinesOf r.system_passed r.load_passed r.chaos_passed).any
        (fun l => strStartsWith l "- Chaos Tests:") =
          r.chaos_passed.isSome)) ∧
    (∀ (s : Bool) (sp lp cp : Option Bool),
      strContains (TestReport.to_markdown ⟨s, 0, sp, lp, cp, none⟩)
          "- System Tests:" = sp.isSome ∧
      strContains (TestReport.to_markdown ⟨s, 0, sp, lp, cp, none⟩)
          "- Load Tests:" = lp.isSome ∧
      strContains (TestReport.to_markdown ⟨s, 0, sp, lp, cp, none⟩)
          "- Chaos Tests:" = cp.isSome) := by
  constructor
  · intro r
    exact report_render_cases r.system_passed r.load_passed r.chaos_passed
  · decide

/-- C10: the `/health` endpoint never raises: for both outcomes of the
database check it returns a body whose `status` is `"healthy"`; a database
exception only changes the `database` field from `"connected"` to
`"disconnected"`, leaving `status` and `environment` unchanged. -/
theorem claim_C10 (environment : String) (e : PyErr) :
    (health_check (Except.ok ()) environment).status = "healthy" ∧
    (health_check (Except.error e) environment).status = "healthy" ∧
    (health_check (Except.ok ()) environment).database = "connected" ∧
    (health_check (Except.error e) environment).database = "disconnected" ∧
    (health_check (Except.error e) environment).environment = environment ∧
    (health_check (Except.ok ()) environment).environment = environment :=
  ⟨rfl, rfl, rfl, rfl, rfl, rfl⟩

end Shopifake
